import Mathlib

/-!
Verification of the bid-to-transaction core of the `agri` marketplace
repository, which consists of two applications sharing one domain:

* `back.py` — an SQLite-backed store with `users`, `products` and
  `purchases` tables, password hashing (SHA-256 hex digest), a guarded
  purchase path (`add_purchase`) and unguarded product updates
  (`update_product`).
* `main.py` — a Streamlit marketplace with `users`, `produce`, `bids` and
  `transactions` tables and the operations `accept_bid`, `reject_bid`,
  `mark_as_sold` and `process_payment`.

Tables are modelled as Lean lists of rows; each SQL statement becomes an
explicit list transformation.  SQLite `REAL` columns are modelled as `Rat`
(a single stored product of two stored fields is exact under any carrier),
`INTEGER` columns as `Int`, and Python-level `AUTOINCREMENT`/`uuid` fresh
values are taken as parameters.  The session user (`st.session_state.user_id`)
is likewise an explicit parameter.
-/

namespace SHA256

/-- Addition modulo `2 ^ 32`, the word arithmetic of SHA-256. -/
def add32 (a b : Nat) : Nat := (a + b) % 4294967296

/-- Right rotation of a 32-bit word (input assumed `< 2 ^ 32`). -/
def rotr (n x : Nat) : Nat := ((x >>> n) ||| (x <<< (32 - n))) % 4294967296

/-- Big sigma-0 compression function. -/
def bsig0 (x : Nat) : Nat := rotr 2 x ^^^ rotr 13 x ^^^ rotr 22 x

/-- Big sigma-1 compression function. -/
def bsig1 (x : Nat) : Nat := rotr 6 x ^^^ rotr 11 x ^^^ rotr 25 x

/-- Small sigma-0 message-schedule function. -/
def ssig0 (x : Nat) : Nat := rotr 7 x ^^^ rotr 18 x ^^^ (x >>> 3)

/-- Small sigma-1 message-schedule function. -/
def ssig1 (x : Nat) : Nat := rotr 17 x ^^^ rotr 19 x ^^^ (x >>> 10)

/-- Choice function `Ch(x, y, z)`; the complement is a 32-bit xor mask. -/
def chf (x y z : Nat) : Nat := (x &&& y) ^^^ ((x ^^^ 4294967295) &&& z)

/-- Majority function `Maj(x, y, z)`. -/
def majf (x y z : Nat) : Nat := (x &&& y) ^^^ (x &&& z) ^^^ (y &&& z)

/-- The 64 SHA-256 round constants of FIPS 180-4, written in decimal. -/
def K : List Nat :=
  [1116352408, 1899447441, 3049323471, 3921009573, 961987163, 1508970993,
   2453635748, 2870763221, 3624381080, 310598401, 607225278, 1426881987,
   1925078388, 2162078206, 2614888103, 3248222580, 3835390401, 4022224774,
   264347078, 604807628, 770255983, 1249150122, 1555081692, 1996064986,
   2554220882, 2821834349, 2952996808, 3210313671, 3336571891, 3584528711,
   113926993, 338241895, 666307205, 773529912, 1294757372, 1396182291,
   1695183700, 1986661051, 2177026350, 2456956037, 2730485921, 2820302411,
   3259730800, 3345764771, 3516065817, 3600352804, 4094571909, 275423344,
   430227734, 506948616, 659060556, 883997877, 958139571, 1322822218,
   1537002063, 1747873779, 1955562222, 2024104815, 2227730452, 2361852424,
   2428436474, 2756734187, 3204031479, 3329325298]

/-- The initial hash value of FIPS 180-4, written in decimal. -/
def H0 : List Nat :=
  [1779033703, 3144134277, 1013904242, 2773480762,
   1359893119, 2600822924, 528734635, 1541459225]

/-- The 8-byte big-endian encoding of the message length in bits. -/
def lenBytes (n : Nat) : List Nat := (List.range 8).map (fun i => (n >>> (8 * (7 - i))) &&& 255)

/-- Standard SHA-256 padding: a `0x80` byte, zeros, then the bit length. -/
def padBytes (msg : List Nat) : List Nat :=
  msg ++ [128] ++ List.replicate ((64 - ((msg.length + 9) % 64)) % 64) 0 ++ lenBytes (8 * msg.length)

/-- Splits a padded message into 64-byte chunks. -/
def chunks64 (l : List Nat) : List (List Nat) :=
  (List.range (l.length / 64)).map (fun i => (l.drop (64 * i)).take 64)

/-- The 16 big-endian 32-bit words of one 64-byte chunk. -/
def bytesToWords (c : List Nat) : List Nat :=
  (List.range 16).map (fun i =>
    c.getD (4 * i) 0 * 16777216 + c.getD (4 * i + 1) 0 * 65536 +
    c.getD (4 * i + 2) 0 * 256 + c.getD (4 * i + 3) 0)

/-- Extends 16 message words to the 64-entry message schedule. -/
def buildW (ws0 : List Nat) : List Nat :=
  (List.range 64).foldl (fun ws t =>
    if t < 16 then ws ++ [ws0.getD t 0]
    else ws ++ [add32 (add32 (ssig1 (ws.getD (t - 2) 0)) (ws.getD (t - 7) 0))
                      (add32 (ssig0 (ws.getD (t - 15) 0)) (ws.getD (t - 16) 0))]) []

/-- One round of the compression loop on the state `[a, b, c, d, e, f, g, h]`. -/
def roundStep (s : List Nat) (kw : Nat × Nat) : List Nat :=
  match s with
  | [a, b, c, d, e, f, g, h] =>
    let t1 := add32 h (add32 (bsig1 e) (add32 (chf e f g) (add32 kw.1 kw.2)))
    let t2 := add32 (bsig0 a) (majf a b c)
    [add32 t1 t2, a, b, c, add32 d t1, e, f, g]
  | r => r

/-- Compression of one 64-byte chunk into the running hash state. -/
def compressChunk (h : List Nat) (chunk : List Nat) : List Nat :=
  List.zipWith add32 h ((K.zip (buildW (bytesToWords chunk))).foldl roundStep h)

/-- The eight 32-bit words of the SHA-256 digest of a byte sequence. -/
def sha256Words (msg : List Nat) : List Nat :=
  (chunks64 (padBytes msg)).foldl compressChunk H0

/-- Lower-case hexadecimal digit character. -/
def hexChar (n : Nat) : Char := if n < 10 then Char.ofNat (48 + n) else Char.ofNat (87 + n)

/-- The eight hex characters of one 32-bit word, most significant first. -/
def wordHex (w : Nat) : List Char := (List.range 8).map (fun i => hexChar ((w >>> (4 * (7 - i))) &&& 15))

/-- The 64-character lower-case hex digest, as produced by `hexdigest()`. -/
def sha256Hex (msg : List Nat) : String :=
  String.mk ((sha256Words msg).foldr (fun w acc => wordHex w ++ acc) [])

end SHA256

/-- UTF-8 encoding of one Unicode code point, as in Python `str.encode()`. -/
def utf8EncodeCodePoint (n : Nat) : List Nat :=
  if n < 128 then [n]
  else if n < 2048 then [192 ||| (n >>> 6), 128 ||| (n &&& 63)]
  else if n < 65536 then
    [224 ||| (n >>> 12), 128 ||| ((n >>> 6) &&& 63), 128 ||| (n &&& 63)]
  else
    [240 ||| (n >>> 18), 128 ||| ((n >>> 12) &&& 63), 128 ||| ((n >>> 6) &&& 63), 128 ||| (n &&& 63)]

/-- UTF-8 byte sequence of a string, as in Python `password.encode()`. -/
def utf8Bytes (s : String) : List Nat :=
  s.data.foldr (fun c acc => utf8EncodeCodePoint c.toNat ++ acc) []

/-- `back.py` `hash_password`: `hashlib.sha256(password.encode()).hexdigest()`. -/
def hash_password (password : String) : String := SHA256.sha256Hex (utf8Bytes password)

/-- A row of the `back.py` `users` table (`username TEXT UNIQUE, password, role`). -/
structure UserRow where
  username : String
  password : String
  role : String
deriving DecidableEq

/-- A row of the `back.py` `products` table; `price REAL`, `quantity INTEGER`.
The `image BLOB` and `added_on TEXT` columns carry no logic and are omitted. -/
structure Product where
  id : Nat
  name : String
  category : String
  price : Rat
  quantity : Int
  added_by : String
deriving DecidableEq

/-- A row of the `back.py` `purchases` table (`purchased_on` omitted). -/
structure Purchase where
  username : String
  product_id : Nat
  quantity : Int
deriving DecidableEq

/-- The `back.py` database: the three tables of `create_tables`. -/
structure BackDB where
  users : List UserRow
  products : List Product
  purchases : List Purchase
deriving DecidableEq

/-- A SQL `UPDATE ... WHERE hit` over a table: rows matching `hit` are rewritten. -/
def sqlUpdate (hit : α → Bool) (rewrite : α → α) (tbl : List α) : List α :=
  tbl.map (fun r => if hit r then rewrite r else r)

/-- Storage-layer failure raised by SQLite on a constraint violation. -/
inductive SqlError where
  | IntegrityError
deriving DecidableEq

/-- `INSERT INTO users ...` against the `username TEXT UNIQUE` constraint:
a duplicate username raises `IntegrityError` and inserts nothing. -/
def insertUserRow (tbl : List UserRow) (row : UserRow) : Except SqlError (List UserRow) :=
  if tbl.any (fun u => u.username == row.username) then Except.error SqlError.IntegrityError
  else Except.ok (tbl ++ [row])

/-- `back.py` `save_user`: inserts the username with the hashed password and
returns `True`, or returns `False` when the insert raises `IntegrityError`.
The source defaults `role` to `"user"`; the role is passed explicitly here. -/
def save_user (db : BackDB) (username password role : String) : Bool × BackDB :=
  match insertUserRow db.users { username := username, password := hash_password password, role := role } with
  | Except.ok users2 => (true, { db with users := users2 })
  | Except.error _ => (false, db)

/-- `back.py` `get_product_by_id`: `SELECT * FROM products WHERE id=?`, first row. -/
def get_product_by_id (db : BackDB) (pid : Nat) : Option Product :=
  db.products.find? (fun p => p.id == pid)

/-- One conditional column update of `update_product` guarded by Python
truthiness (`if name:`): skipped for `None` and for the empty string. -/
def setIfTruthyString (pid : Nat) (v : Option String) (put : String → Product → Product)
    (ps : List Product) : List Product :=
  match v with
  | none => ps
  | some s => if s == "" then ps else sqlUpdate (fun p => p.id == pid) (put s) ps

/-- One conditional column update of `update_product` guarded by
`if ... is not None`. -/
def setIfSome (pid : Nat) (v : Option α) (put : α → Product → Product)
    (ps : List Product) : List Product :=
  match v with
  | none => ps
  | some x => sqlUpdate (fun p => p.id == pid) (put x) ps

/-- `back.py` `update_product`: four independent conditional `UPDATE` statements,
in source order name, category, price, quantity. -/
def update_product (db : BackDB) (pid : Nat) (name category : Option String)
    (price : Option Rat) (quantity : Option Int) : BackDB :=
  let ps := db.products
  let ps := setIfTruthyString pid name (fun v p => { p with name := v }) ps
  let ps := setIfTruthyString pid category (fun v p => { p with category := v }) ps
  let ps := setIfSome pid price (fun v p => { p with price := v }) ps
  let ps := setIfSome pid quantity (fun v p => { p with quantity := v }) ps
  { db with products := ps }

/-- `back.py` `add_product`: unconditional insert; the `AUTOINCREMENT` id is a
parameter. -/
def add_product (db : BackDB) (name category : String) (price : Rat) (quantity : Int)
    (added_by : String) (freshId : Nat) : BackDB :=
  { db with products := db.products ++
      [{ id := freshId, name := name, category := category, price := price,
         quantity := quantity, added_by := added_by }] }

/-- `back.py` `delete_product`: `DELETE FROM products WHERE id=?`. -/
def delete_product (db : BackDB) (pid : Nat) : BackDB :=
  { db with products := db.products.filter (fun p => !(p.id == pid)) }

/-- `back.py` `add_purchase`: looks the product up, and only when it exists and
its stored quantity is at least `qty` decrements the quantity via
`update_product` and inserts a purchase row, returning `True`; otherwise it
returns `False` without touching the store. -/
def add_purchase (db : BackDB) (username : String) (pid : Nat) (qty : Int) : Bool × BackDB :=
  match get_product_by_id db pid with
  | some product =>
    if product.quantity ≥ qty then
      let db1 := update_product db pid none none none (some (product.quantity - qty))
      (true, { db1 with purchases := db1.purchases ++
          [{ username := username, product_id := pid, quantity := qty }] })
    else (false, db)
  | none => (false, db)

/-- The `back.py` store mutations that can touch the `products` table. -/
inductive BackOp where
  | addProduct (name category : String) (price : Rat) (quantity : Int) (added_by : String) (freshId : Nat)
  | updateProduct (pid : Nat) (name category : Option String) (price : Option Rat) (quantity : Option Int)
  | deleteProduct (pid : Nat)
  | addPurchase (username : String) (pid : Nat) (qty : Int)

/-- Running one `back.py` operation on the store (the `Bool` result of
`add_purchase` is discarded here). -/
def applyBackOp (op : BackOp) (db : BackDB) : BackDB :=
  match op with
  | BackOp.addProduct n c pr q a f => add_product db n c pr q a f
  | BackOp.updateProduct pid n c pr q => update_product db pid n c pr q
  | BackOp.deleteProduct pid => delete_product db pid
  | BackOp.addPurchase u pid q => (add_purchase db u pid q).2

/-- Every stored product quantity is non-negative. -/
def prodNonneg (db : BackDB) : Prop := ∀ p ∈ db.products, 0 ≤ p.quantity

instance (db : BackDB) : Decidable (prodNonneg db) := by
  unfold prodNonneg; infer_instance

/-- The quantity argument an operation writes verbatim into the store, when it
has one, is non-negative; `add_purchase` needs no such proviso. -/
def backOpSuppliedNonneg : BackOp → Prop
  | BackOp.addProduct _ _ _ q _ _ => 0 ≤ q
  | BackOp.updateProduct _ _ _ _ q => 0 ≤ q.getD 0
  | BackOp.deleteProduct _ => True
  | BackOp.addPurchase _ _ _ => True

instance : DecidablePred backOpSuppliedNonneg := by
  intro op
  cases op <;> simp [backOpSuppliedNonneg] <;> infer_instance

/-- A row of the `main.py` `produce` table.  `quantity REAL` and
`base_price REAL` are modelled as `Rat`; `status` defaults to `'active'`.
Presentation-only columns (description, dates, location, image, created_at)
are omitted. -/
structure Produce where
  id : Nat
  farmer_id : Nat
  title : String
  category : String
  quantity : Rat
  unit : String
  base_price : Rat
  quality_grade : String
  status : String
deriving DecidableEq

/-- A row of the `main.py` `bids` table; `status` defaults to `'pending'`
(`created_at` omitted). -/
structure Bid where
  id : Nat
  produce_id : Nat
  buyer_id : Nat
  bid_amount : Rat
  quantity_requested : Rat
  message : String
  status : String
deriving DecidableEq

/-- A row of the `main.py` `transactions` table; `payment_method` is `NULL`
until a payment is processed and `payment_status` defaults to `'pending'`. -/
structure Txn where
  transaction_id : String
  bid_id : Nat
  farmer_id : Nat
  buyer_id : Nat
  amount : Rat
  payment_method : Option String
  payment_status : String
deriving DecidableEq

/-- The `main.py` database: the produce, bids and transactions tables of
`init_database` (the users table carries no logic for these operations). -/
structure MarketDB where
  produce : List Produce
  bids : List Bid
  transactions : List Txn
deriving DecidableEq

/-- The transaction row `accept_bid` inserts: the generated reference, the
accepted bid's id, the session user as `farmer_id`, the bid's buyer, and
`amount = bid_amount * quantity_requested`. -/
def acceptTxn (txnRef : String) (bidId sessionUserId : Nat) (b : Bid) : Txn :=
  { transaction_id := txnRef, bid_id := bidId, farmer_id := sessionUserId,
    buyer_id := b.buyer_id, amount := b.bid_amount * b.quantity_requested,
    payment_method := none, payment_status := "pending" }

/-- `main.py` `accept_bid`: fetches the bid joined with its produce row; when
the join yields a row it sets the bid's status to `'accepted'` and inserts a
transaction.  There is no ownership, status, stock or duplicate check, and the
produce table is never touched.  The fresh `TXN_...` reference and the session
user are parameters. -/
def accept_bid (db : MarketDB) (bidId sessionUserId : Nat) (txnRef : String) : MarketDB :=
  match db.bids.find? (fun b => b.id == bidId) with
  | none => db
  | some b =>
    match db.produce.find? (fun p => p.id == b.produce_id) with
    | none => db
    | some _ =>
      { db with
        bids := sqlUpdate (fun x => x.id == bidId) (fun x => { x with status := "accepted" }) db.bids,
        transactions := db.transactions ++ [acceptTxn txnRef bidId sessionUserId b] }

/-- `main.py` `reject_bid`: `UPDATE bids SET status='rejected' WHERE id=?`,
unconditionally. -/
def reject_bid (db : MarketDB) (bidId : Nat) : MarketDB :=
  { db with bids := sqlUpdate (fun x => x.id == bidId) (fun x => { x with status := "rejected" }) db.bids }

/-- `main.py` `mark_as_sold`: `UPDATE produce SET status='sold' WHERE id=?`,
unconditionally — no quantity condition. -/
def mark_as_sold (db : MarketDB) (produceId : Nat) : MarketDB :=
  { db with produce := sqlUpdate (fun p => p.id == produceId) (fun p => { p with status := "sold" }) db.produce }

/-- The guard of `process_payment`: its `SELECT ... JOIN bids JOIN produce
WHERE t.bid_id=?` returned a row, i.e. some transaction for the bid whose bid
and produce rows exist. -/
def paymentRowVisible (db : MarketDB) (bidId : Nat) : Bool :=
  db.transactions.any (fun t => t.bid_id == bidId &&
    db.bids.any (fun b => b.id == t.bid_id &&
      db.produce.any (fun p => p.id == b.produce_id)))

/-- The payment submission of `main.py` `process_payment`: when the guard row
exists, `UPDATE transactions SET payment_method=?, payment_status='completed'
WHERE bid_id=?` — no check of the current payment status. -/
def process_payment (db : MarketDB) (bidId : Nat) (method : String) : MarketDB :=
  if paymentRowVisible db bidId then
    { db with transactions := (sqlUpdate (fun t => t.bid_id == bidId)
        (fun t => { t with payment_method := some method, payment_status := "completed" }) db.transactions) }
  else db

/-- An active listing of 2 units owned by farmer 1. -/
def produce1 : Produce :=
  { id := 1, farmer_id := 1, title := "Tomatoes", category := "Vegetables",
    quantity := 2, unit := "kg", base_price := 10, quality_grade := "A", status := "active" }

/-- A pending bid by buyer 2 requesting 3 units of listing 1 — more than its
available quantity. -/
def bid10over : Bid :=
  { id := 10, produce_id := 1, buyer_id := 2, bid_amount := 4,
    quantity_requested := 3, message := "", status := "pending" }

/-- A database holding the overstretched pending bid on the 2-unit listing. -/
def mdb0 : MarketDB := { produce := [produce1], bids := [bid10over], transactions := [] }

/-- The same bid after the owner rejected it. -/
def bid10rejected : Bid := { bid10over with status := "rejected" }

/-- A database holding an already-rejected bid. -/
def mdb1 : MarketDB := { produce := [produce1], bids := [bid10rejected], transactions := [] }

/-- The bid in accepted state, for the payment scenarios. -/
def bid10accepted : Bid := { bid10over with status := "accepted" }

/-- A transaction for bid 10 whose payment is already completed via UPI. -/
def txn10completed : Txn :=
  { transaction_id := "TXN_00000001", bid_id := 10, farmer_id := 1, buyer_id := 2,
    amount := 12, payment_method := some "UPI", payment_status := "completed" }

/-- A database holding an accepted bid with an already-completed payment. -/
def mdb3 : MarketDB := { produce := [produce1], bids := [bid10accepted], transactions := [txn10completed] }

/-- The completed transaction after a second payment submission overwrote the
payment method. -/
def txn10repaid : Txn := { txn10completed with payment_method := some "Credit Card" }

/-- A `back.py` product with 5 units in stock. -/
def bproduct1 : Product :=
  { id := 1, name := "Rice", category := "Grains", price := 20, quantity := 5, added_by := "alice" }

/-- A `back.py` database with one product and no users or purchases. -/
def bdb0 : BackDB := { users := [], products := [bproduct1], purchases := [] }

/-- A `back.py` database whose users table already holds the username `alice`. -/
def bdbU : BackDB :=
  { users := [{ username := "alice", password := "x", role := "user" }], products := [], purchases := [] }

/-- Rows produced by a SQL update come from a row of the original table,
rewritten when it matched. -/
theorem mem_sqlUpdate_imp (hit : α → Bool) (g : α → α) (l : List α) :
    ∀ x ∈ sqlUpdate hit g l, ∃ y ∈ l, x = if hit y then g y else y := by
  intro x hx
  rcases List.mem_map.mp hx with ⟨y, hy, he⟩
  exact ⟨y, hy, he.symm⟩

/-- When the rewrite does not change whether a row matches, the first matching
row after a SQL update is the rewritten first matching row. -/
theorem sqlUpdate_find?_stable (hit : α → Bool) (g : α → α) (l : List α) (x : α)
    (hstable : ∀ y, hit (g y) = hit y) (hfind : l.find? hit = some x) :
    (sqlUpdate hit g l).find? hit = some (g x) := by
  induction l with
  | nil => simp at hfind
  | cons a t ih =>
    simp only [sqlUpdate, List.map_cons]
    by_cases ha : hit a = true
    · rw [List.find?_cons_of_pos _ ha] at hfind
      injection hfind with hx
      subst hx
      rw [if_pos ha]
      exact List.find?_cons_of_pos _ (by rw [hstable]; exact ha)
    · rw [List.find?_cons_of_neg _ ha] at hfind
      rw [if_neg ha]
      rw [List.find?_cons_of_neg _ ha]
      exact ih hfind

/-- A truthiness-guarded string column update never touches the quantity
column, provided its rewriter does not. -/
theorem setIfTruthyString_quantity (pid : Nat) (v : Option String)
    (put : String → Product → Product) (ps : List Product)
    (hput : ∀ s q, (put s q).quantity = q.quantity) :
    ∀ x ∈ setIfTruthyString pid v put ps, ∃ y ∈ ps, x.quantity = y.quantity := by
  intro x hx
  cases v with
  | none => exact ⟨x, hx, rfl⟩
  | some s =>
    by_cases hs : (s == "") = true
    · simp only [setIfTruthyString, hs, if_pos] at hx
      exact ⟨x, hx, rfl⟩
    · simp only [setIfTruthyString] at hx
      rw [if_neg hs] at hx
      rcases mem_sqlUpdate_imp _ _ _ x hx with ⟨y, hy, he⟩
      refine ⟨y, hy, ?_⟩
      subst he
      split
      · exact hput s y
      · rfl

/-- A presence-guarded column update never touches the quantity column,
provided its rewriter does not. -/
theorem setIfSome_quantity (pid : Nat) (v : Option α)
    (put : α → Product → Product) (ps : List Product)
    (hput : ∀ a q, (put a q).quantity = q.quantity) :
    ∀ x ∈ setIfSome pid v put ps, ∃ y ∈ ps, x.quantity = y.quantity := by
  intro x hx
  cases v with
  | none => exact ⟨x, hx, rfl⟩
  | some a =>
    rcases mem_sqlUpdate_imp _ _ _ x hx with ⟨y, hy, he⟩
    refine ⟨y, hy, ?_⟩
    subst he
    split
    · exact hput a y
    · rfl

/-- Every quantity stored after `update_product` is either a quantity already
in the table or the explicitly supplied replacement value. -/
theorem update_product_quantity_mem (db : BackDB) (pid : Nat)
    (name category : Option String) (price : Option Rat) (q : Option Int) :
    ∀ x ∈ (update_product db pid name category price q).products,
      (∃ y ∈ db.products, x.quantity = y.quantity) ∨ (∃ v, q = some v ∧ x.quantity = v) := by
  intro x hx
  simp only [update_product] at hx
  cases q with
  | none =>
    left
    rcases setIfSome_quantity pid price (fun v r => { r with price := v }) _
      (fun a r => rfl) x hx with ⟨y2, hy2, he2⟩
    rcases setIfTruthyString_quantity pid category (fun v r => { r with category := v }) _
      (fun s r => rfl) y2 hy2 with ⟨y1, hy1, he1⟩
    rcases setIfTruthyString_quantity pid name (fun v r => { r with name := v }) _
      (fun s r => rfl) y1 hy1 with ⟨y0, hy0, he0⟩
    exact ⟨y0, hy0, by rw [he2, he1, he0]⟩
  | some v =>
    rcases mem_sqlUpdate_imp _ _ _ x hx with ⟨y, hy, he⟩
    subst he
    by_cases hid : (y.id == pid) = true
    · right
      exact ⟨v, rfl, by rw [if_pos hid]⟩
    · left
      rw [if_neg hid]
      rcases setIfSome_quantity pid price (fun v r => { r with price := v }) _
        (fun a r => rfl) y hy with ⟨y2, hy2, he2⟩
      rcases setIfTruthyString_quantity pid category (fun v r => { r with category := v }) _
        (fun s r => rfl) y2 hy2 with ⟨y1, hy1, he1⟩
      rcases setIfTruthyString_quantity pid name (fun v r => { r with name := v }) _
        (fun s r => rfl) y1 hy1 with ⟨y0, hy0, he0⟩
      exact ⟨y0, hy0, by rw [he2, he1, he0]⟩

/-- `update_product` preserves non-negative stock when the supplied quantity,
if any, is non-negative. -/
theorem prodNonneg_update_product (db : BackDB) (pid : Nat)
    (name category : Option String) (price : Option Rat) (q : Option Int)
    (h : prodNonneg db) (hq : 0 ≤ q.getD 0) :
    prodNonneg (update_product db pid name category price q) := by
  intro x hx
  rcases update_product_quantity_mem db pid name category price q x hx with ⟨y, hy, he⟩ | ⟨v, hv, he⟩
  · rw [he]; exact h y hy
  · rw [he]; rw [hv] at hq; simpa using hq

/-- `add_purchase` preserves non-negative stock unconditionally: it only
decrements when the stored quantity is at least the requested one. -/
theorem prodNonneg_add_purchase (db : BackDB) (u : String) (pid : Nat) (qty : Int)
    (h : prodNonneg db) : prodNonneg (add_purchase db u pid qty).2 := by
  unfold add_purchase
  cases hfp : get_product_by_id db pid with
  | none => exact h
  | some product =>
    dsimp only
    by_cases hge : product.quantity ≥ qty
    · rw [if_pos hge]
      intro x hx
      exact prodNonneg_update_product db pid none none none (some (product.quantity - qty)) h
        (by simp only [Option.getD]; omega) x hx
    · rw [if_neg hge]
      exact h

/-- `accept_bid` never touches the produce table in any branch. -/
theorem accept_bid_produce_unchanged (db : MarketDB) (bidId acting : Nat) (ref : String) :
    (accept_bid db bidId acting ref).produce = db.produce := by
  unfold accept_bid
  cases db.bids.find? (fun b => b.id == bidId) with
  | none => rfl
  | some b =>
    dsimp only
    cases db.produce.find? (fun p => p.id == b.produce_id) with
    | none => rfl
    | some p => rfl

/-- The defining equation of `accept_bid` when the bid joined with its produce
row is found. -/
theorem accept_bid_found_eq (db : MarketDB) (bidId acting : Nat) (ref : String)
    (b : Bid) (p : Produce)
    (hb : db.bids.find? (fun x => x.id == bidId) = some b)
    (hp : db.produce.find? (fun x => x.id == b.produce_id) = some p) :
    accept_bid db bidId acting ref =
      { db with
        bids := sqlUpdate (fun x => x.id == bidId) (fun x => { x with status := "accepted" }) db.bids,
        transactions := db.transactions ++ [acceptTxn ref bidId acting b] } := by
  unfold accept_bid
  rw [hb]
  dsimp only
  rw [hp]

/-- Claim C1, counterexample: on a listing with 2 units, accepting a pending
bid requesting 3 units does not fail with `InsufficientStock` — the bid
becomes `accepted` rather than staying `pending`, the listing's quantity is
not decremented, and a transaction is still created. -/
theorem accept_bid_overbid_cex :
    (mdb0.bids.find? (fun b => b.id == 10)).map Bid.quantity_requested = some 3 ∧
    (mdb0.bids.find? (fun b => b.id == 10)).map Bid.status = some "pending" ∧
    (mdb0.produce.find? (fun p => p.id == 1)).map Produce.quantity = some 2 ∧
    ((accept_bid mdb0 10 1 "TXN_0A0A0A0A").bids.find? (fun b => b.id == 10)).map Bid.status =
      some "accepted" ∧
    ((accept_bid mdb0 10 1 "TXN_0A0A0A0A").bids.find? (fun b => b.id == 10)).map Bid.status ≠
      some "pending" ∧
    (accept_bid mdb0 10 1 "TXN_0A0A0A0A").transactions.length = 1 := by
  decide

/-- Claim C1, amended: `accept_bid` performs no inventory reservation at all.
For any existing bid whose produce row exists, regardless of how the requested
quantity compares to the available quantity, acceptance succeeds: the bid's
status becomes `accepted`, a transaction is inserted, and the produce table —
including the listing's available quantity and status — is left unchanged. -/
theorem accept_bid_no_reservation (db : MarketDB) (bidId acting : Nat) (ref : String)
    (b : Bid) (p : Produce)
    (hb : db.bids.find? (fun x => x.id == bidId) = some b)
    (hp : db.produce.find? (fun x => x.id == b.produce_id) = some p) :
    (accept_bid db bidId acting ref).produce = db.produce ∧
    (accept_bid db bidId acting ref).bids.find? (fun x => x.id == bidId) =
      some { b with status := "accepted" } ∧
    (accept_bid db bidId acting ref).transactions = db.transactions ++ [acceptTxn ref bidId acting b] := by
  rw [accept_bid_found_eq db bidId acting ref b p hb hp]
  exact ⟨rfl, sqlUpdate_find?_stable _ _ _ _ (fun y => rfl) hb, rfl⟩

/-- Claim C1, witness for the amended theorem at the concrete overbid state. -/
theorem accept_bid_no_reservation_witness :
    mdb0.bids.find? (fun x => x.id == 10) = some bid10over ∧
    mdb0.produce.find? (fun x => x.id == bid10over.produce_id) = some produce1 ∧
    (accept_bid mdb0 10 1 "TXN_0B0B0B0B").produce = mdb0.produce :=
  ⟨by decide, by decide,
   (accept_bid_no_reservation mdb0 10 1 "TXN_0B0B0B0B" bid10over produce1
     (by decide) (by decide)).1⟩

/-- Claim C2, counterexample: `update_product` writes the supplied quantity
verbatim, so an update with quantity `-1` drives a non-negative stock
negative. -/
theorem update_product_negative_qty_cex :
    prodNonneg bdb0 ∧
    ¬ prodNonneg (applyBackOp (BackOp.updateProduct 1 none none none (some (-1))) bdb0) :=
  ⟨by decide, by decide⟩

/-- Claim C2, amended: every `back.py` store operation preserves non-negative
stock provided any quantity it writes verbatim (creation or update argument)
is itself non-negative; `add_purchase` needs no proviso because it only
decrements when the stored quantity is at least the requested one; and
`main.py` bid acceptance never touches the produce table at all. -/
theorem back_quantity_nonneg_preserved :
    (∀ (db : BackDB) (op : BackOp),
      prodNonneg db → backOpSuppliedNonneg op → prodNonneg (applyBackOp op db)) ∧
    (∀ (db : MarketDB) (i acting : Nat) (ref : String),
      (accept_bid db i acting ref).produce = db.produce) := by
  constructor
  · intro db op h hop
    cases op with
    | addProduct n c pr q a f =>
      intro x hx
      unfold applyBackOp add_product at hx
      rcases List.mem_append.mp hx with hx | hx
      · exact h x hx
      · rw [List.mem_singleton] at hx
        subst hx
        exact hop
    | updateProduct pid n c pr q =>
      exact prodNonneg_update_product db pid n c pr q h hop
    | deleteProduct pid =>
      intro x hx
      unfold applyBackOp delete_product at hx
      exact h x (List.mem_of_mem_filter hx)
    | addPurchase u pid q =>
      exact prodNonneg_add_purchase db u pid q h
  · exact accept_bid_produce_unchanged

/-- Claim C2, witness: a concrete purchase of 3 of 5 units keeps stock
non-negative. -/
theorem back_quantity_nonneg_preserved_witness :
    prodNonneg bdb0 ∧ backOpSuppliedNonneg (BackOp.addPurchase "bob" 1 3) ∧
    prodNonneg (applyBackOp (BackOp.addPurchase "bob" 1 3) bdb0) :=
  ⟨by decide, by decide,
   back_quantity_nonneg_preserved.1 bdb0 (BackOp.addPurchase "bob" 1 3) (by decide) (by decide)⟩

/-- Claim C3: `add_purchase` is atomic on failure.  When the product is
missing or its stored quantity is below the requested one it returns `False`
and the store is completely unchanged; when availability suffices it returns
`True`, decrements exactly the product's stored quantity by the requested
amount, and appends exactly one purchase row. -/
theorem add_purchase_atomic (db : BackDB) (u : String) (pid : Nat) (qty : Int) :
    (get_product_by_id db pid = none → add_purchase db u pid qty = (false, db)) ∧
    (∀ product, get_product_by_id db pid = some product → product.quantity < qty →
      add_purchase db u pid qty = (false, db)) ∧
    (∀ product, get_product_by_id db pid = some product → qty ≤ product.quantity →
      (add_purchase db u pid qty).1 = true ∧
      (add_purchase db u pid qty).2.users = db.users ∧
      (add_purchase db u pid qty).2.purchases =
        db.purchases ++ [{ username := u, product_id := pid, quantity := qty }] ∧
      (add_purchase db u pid qty).2.products =
        sqlUpdate (fun p => p.id == pid)
          (fun p => { p with quantity := product.quantity - qty }) db.products) := by
  refine ⟨?_, ?_, ?_⟩
  · intro hn
    unfold add_purchase
    rw [hn]
  · intro product hfp hlt
    unfold add_purchase
    rw [hfp]
    dsimp only
    rw [if_neg (not_le.mpr hlt)]
  · intro product hfp hge
    unfold add_purchase
    rw [hfp]
    dsimp only
    rw [if_pos hge]
    refine ⟨rfl, rfl, rfl, ?_⟩
    simp only [update_product, setIfTruthyString, setIfSome]

/-- Claim C3, witness: buying 3 of 5 units succeeds on the concrete store. -/
theorem add_purchase_atomic_witness :
    get_product_by_id bdb0 1 = some bproduct1 ∧ (3 : Int) ≤ bproduct1.quantity ∧
    (add_purchase bdb0 "bob" 1 3).1 = true :=
  ⟨by decide, by decide,
   ((add_purchase_atomic bdb0 "bob" 1 3).2.2 bproduct1 (by decide) (by decide)).1⟩

/-- Claim C4, counterexample: accepting an already-rejected bid does not fail
with `InvalidState` — `accept_bid` flips its status from `rejected` to
`accepted` and still inserts a transaction, so rejection is not terminal. -/
theorem accept_rejected_bid_cex :
    (mdb1.bids.find? (fun b => b.id == 10)).map Bid.status = some "rejected" ∧
    ((accept_bid mdb1 10 1 "TXN_0C0C0C0C").bids.find? (fun b => b.id == 10)).map Bid.status =
      some "accepted" ∧
    (accept_bid mdb1 10 1 "TXN_0C0C0C0C").transactions.length = 1 := by
  decide

/-- Claim C4, amended: bid status is overwritten unconditionally.  Whatever
the current status — including the terminal-looking `accepted` and `rejected`
— `accept_bid` sets any found bid's status to `accepted` and `reject_bid`
sets any found bid's status to `rejected`; no `InvalidState` failure exists
in the code (only the UI hides the buttons for non-pending bids). -/
theorem bid_status_unconditionally_overwritten (db : MarketDB) (bidId acting : Nat) (ref : String)
    (b : Bid) (p : Produce)
    (hb : db.bids.find? (fun x => x.id == bidId) = some b)
    (hp : db.produce.find? (fun x => x.id == b.produce_id) = some p) :
    (accept_bid db bidId acting ref).bids.find? (fun x => x.id == bidId) =
      some { b with status := "accepted" } ∧
    (∀ (db2 : MarketDB) (i : Nat) (b2 : Bid),
      db2.bids.find? (fun x => x.id == i) = some b2 →
      (reject_bid db2 i).bids.find? (fun x => x.id == i) = some { b2 with status := "rejected" }) := by
  constructor
  · rw [accept_bid_found_eq db bidId acting ref b p hb hp]
    exact sqlUpdate_find?_stable _ _ _ _ (fun y => rfl) hb
  · intro db2 i b2 h2
    exact sqlUpdate_find?_stable _ _ _ _ (fun y => rfl) h2

/-- Claim C4, witness: the rejected bid of the concrete store is flipped to
accepted. -/
theorem bid_status_unconditionally_overwritten_witness :
    mdb1.bids.find? (fun x => x.id == 10) = some bid10rejected ∧
    mdb1.produce.find? (fun x => x.id == bid10rejected.produce_id) = some produce1 ∧
    (accept_bid mdb1 10 1 "TXN_0D0D0D0D").bids.find? (fun x => x.id == 10) =
      some { bid10rejected with status := "accepted" } :=
  ⟨by decide, by decide,
   (bid_status_unconditionally_overwritten mdb1 10 1 "TXN_0D0D0D0D" bid10rejected produce1
     (by decide) (by decide)).1⟩

/-- Claim C5, counterexample: running `accept_bid` twice for the same bid id
does not stop at `DuplicateTransaction` — it leaves two transaction rows
referencing the bid, not exactly one. -/
theorem accept_twice_two_transactions_cex :
    ((accept_bid (accept_bid mdb0 10 1 "TXN_11111111") 10 1 "TXN_22222222").transactions.filter
      (fun t => t.bid_id == 10)).length = 2 := by
  decide

/-- Claim C5, amended: `accept_bid` has no idempotency guard.  Each invocation
on an existing bid inserts a fresh transaction row for it, so two invocations
for the same bid id leave two more transaction rows referencing that bid than
before. -/
theorem accept_bid_no_duplicate_guard (db : MarketDB) (bidId a1 a2 : Nat) (r1 r2 : String)
    (b : Bid) (p : Produce)
    (hb : db.bids.find? (fun x => x.id == bidId) = some b)
    (hp : db.produce.find? (fun x => x.id == b.produce_id) = some p) :
    ((accept_bid (accept_bid db bidId a1 r1) bidId a2 r2).transactions.filter
        (fun t => t.bid_id == bidId)).length =
      (db.transactions.filter (fun t => t.bid_id == bidId)).length + 2 := by
  have h1 := accept_bid_found_eq db bidId a1 r1 b p hb hp
  have hb2 : (accept_bid db bidId a1 r1).bids.find? (fun x => x.id == bidId) =
      some { b with status := "accepted" } := by
    rw [h1]
    exact sqlUpdate_find?_stable _ _ _ _ (fun y => rfl) hb
  have hp2 : (accept_bid db bidId a1 r1).produce.find?
      (fun x => x.id == ({ b with status := "accepted" } : Bid).produce_id) = some p := by
    rw [h1]
    exact hp
  rw [accept_bid_found_eq (accept_bid db bidId a1 r1) bidId a2 r2 _ p hb2 hp2]
  dsimp only
  rw [h1]
  dsimp only
  simp [List.filter_append, acceptTxn]

/-- Claim C5, witness: two acceptances of the concrete pending bid leave two
transactions. -/
theorem accept_bid_no_duplicate_guard_witness :
    mdb0.bids.find? (fun x => x.id == 10) = some bid10over ∧
    ((accept_bid (accept_bid mdb0 10 1 "TXN_33333333") 10 1 "TXN_44444444").transactions.filter
        (fun t => t.bid_id == 10)).length =
      (mdb0.transactions.filter (fun t => t.bid_id == 10)).length + 2 :=
  ⟨by decide,
   accept_bid_no_duplicate_guard mdb0 10 1 1 "TXN_33333333" "TXN_44444444" bid10over produce1
     (by decide) (by decide)⟩

/-- Claim C6: the transaction created by `accept_bid` carries amount exactly
`bid_amount * quantity_requested` of the accepted bid — the single stored
product of the two stored fields, with no further arithmetic on it. -/
theorem txn_amount_is_bid_product (db : MarketDB) (bidId acting : Nat) (ref : String)
    (b : Bid) (p : Produce)
    (hb : db.bids.find? (fun x => x.id == bidId) = some b)
    (hp : db.produce.find? (fun x => x.id == b.produce_id) = some p) :
    ∃ t : Txn, (accept_bid db bidId acting ref).transactions = db.transactions ++ [t] ∧
      t.bid_id = bidId ∧ t.buyer_id = b.buyer_id ∧
      t.amount = b.bid_amount * b.quantity_requested := by
  refine ⟨acceptTxn ref bidId acting b, ?_, rfl, rfl, rfl⟩
  rw [accept_bid_found_eq db bidId acting ref b p hb hp]

/-- Claim C6, witness: the concrete acceptance appends exactly one
transaction. -/
theorem txn_amount_is_bid_product_witness :
    mdb0.bids.find? (fun x => x.id == 10) = some bid10over ∧
    mdb0.produce.find? (fun x => x.id == bid10over.produce_id) = some produce1 ∧
    (accept_bid mdb0 10 1 "TXN_55555555").transactions.length = mdb0.transactions.length + 1 := by
  refine ⟨by decide, by decide, ?_⟩
  obtain ⟨t, ht, -, -, -⟩ :=
    txn_amount_is_bid_product mdb0 10 1 "TXN_55555555" bid10over produce1 (by decide) (by decide)
  rw [ht]
  simp

/-- Claim C7, counterexample: user 7 does not own listing 1 (owner is farmer
1), yet accepting the bid as user 7 succeeds — no `Forbidden` — and the
created transaction names user 7, not the listing's owner, as `farmer_id`. -/
theorem accept_no_ownership_cex :
    (mdb0.produce.find? (fun p => p.id == 1)).map Produce.farmer_id = some 1 ∧
    (mdb0.bids.find? (fun b => b.id == 10)).map Bid.produce_id = some 1 ∧
    ((accept_bid mdb0 10 7 "TXN_66666666").bids.find? (fun b => b.id == 10)).map Bid.status =
      some "accepted" ∧
    (accept_bid mdb0 10 7 "TXN_66666666").transactions.map Txn.farmer_id = [7] := by
  decide

/-- Claim C7, amended: `accept_bid` checks no ownership whatsoever — it
succeeds for any session user — and the transaction it creates records the
session user, not the listing's owning farmer, as `farmer_id` (the payee). -/
theorem accept_bid_payee_is_session_user (db : MarketDB) (bidId acting : Nat) (ref : String)
    (b : Bid) (p : Produce)
    (hb : db.bids.find? (fun x => x.id == bidId) = some b)
    (hp : db.produce.find? (fun x => x.id == b.produce_id) = some p) :
    (accept_bid db bidId acting ref).bids.find? (fun x => x.id == bidId) =
      some { b with status := "accepted" } ∧
    (accept_bid db bidId acting ref).transactions =
      db.transactions ++ [acceptTxn ref bidId acting b] ∧
    (acceptTxn ref bidId acting b).farmer_id = acting := by
  rw [accept_bid_found_eq db bidId acting ref b p hb hp]
  exact ⟨sqlUpdate_find?_stable _ _ _ _ (fun y => rfl) hb, rfl, rfl⟩

/-- Claim C7, witness: acceptance by non-owner 7 on the concrete store. -/
theorem accept_bid_payee_is_session_user_witness :
    mdb0.bids.find? (fun x => x.id == 10) = some bid10over ∧
    produce1.farmer_id = 1 ∧
    (acceptTxn "TXN_77777777" 10 7 bid10over).farmer_id = 7 :=
  ⟨by decide, by decide,
   (accept_bid_payee_is_session_user mdb0 10 7 "TXN_77777777" bid10over produce1
     (by decide) (by decide)).2.2⟩

/-- Claim C8, counterexample: invoking the payment submission on a transaction
whose payment status is already `completed` does not fail with `InvalidState`
— it silently rewrites the row, overwriting the recorded payment method. -/
theorem process_payment_completed_again_cex :
    (mdb3.transactions.find? (fun t => t.bid_id == 10)).map Txn.payment_status =
      some "completed" ∧
    (mdb3.transactions.find? (fun t => t.bid_id == 10)).map Txn.payment_method =
      some (some "UPI") ∧
    ((process_payment mdb3 10 "Credit Card").transactions.find?
      (fun t => t.bid_id == 10)).map Txn.payment_method = some (some "Credit Card") ∧
    process_payment mdb3 10 "Credit Card" ≠ mdb3 := by
  decide

/-- Claim C8, amended: the payment submission has no state guard.  Whenever
its lookup row exists it sets every transaction of that bid to `completed` and
overwrites the payment method, regardless of the previous status; rows of
other bids are untouched.  (Since the only write is to `completed`, the status
indeed never returns to `pending`.) -/
theorem process_payment_no_state_guard (db : MarketDB) (bidId : Nat) (method : String)
    (h : paymentRowVisible db bidId = true) :
    (∀ t ∈ (process_payment db bidId method).transactions, t.bid_id = bidId →
      t.payment_status = "completed" ∧ t.payment_method = some method) ∧
    (∀ t ∈ (process_payment db bidId method).transactions, t.bid_id ≠ bidId →
      t ∈ db.transactions) := by
  unfold process_payment
  rw [if_pos h]
  constructor
  · intro t ht heq
    rcases mem_sqlUpdate_imp _ _ _ t ht with ⟨y, hy, he⟩
    subst he
    by_cases hbid : (y.bid_id == bidId) = true
    · rw [if_pos hbid]
      exact ⟨rfl, rfl⟩
    · exfalso
      apply hbid
      rw [if_neg hbid] at heq
      exact beq_iff_eq.mpr heq
  · intro t ht hne
    rcases mem_sqlUpdate_imp _ _ _ t ht with ⟨y, hy, he⟩
    subst he
    by_cases hbid : (y.bid_id == bidId) = true
    · exfalso
      apply hne
      rw [if_pos hbid]
      exact beq_iff_eq.mp hbid
    · rw [if_neg hbid]
      exact hy

/-- Claim C8, witness: re-submitting payment on the already-completed
concrete transaction rewrites it instead of failing. -/
theorem process_payment_no_state_guard_witness :
    paymentRowVisible mdb3 10 = true ∧
    txn10completed.payment_status = "completed" ∧
    txn10repaid ∈ (process_payment mdb3 10 "Credit Card").transactions ∧
    txn10repaid.payment_status = "completed" ∧ txn10repaid.payment_method = some "Credit Card" :=
  ⟨by decide, by decide, by decide,
   (process_payment_no_state_guard mdb3 10 "Credit Card" (by decide)).1 txn10repaid
     (by decide) (by decide)⟩

/-- Claim C9, counterexample: `mark_as_sold` turns an active listing with 2
remaining units into `sold` — the status reaches `sold` while the available
quantity is nonzero, and no bid acceptance is involved (bids and transactions
are untouched). -/
theorem mark_as_sold_ignores_quantity_cex :
    (mdb0.produce.find? (fun p => p.id == 1)).map Produce.status = some "active" ∧
    (mdb0.produce.find? (fun p => p.id == 1)).map Produce.quantity = some 2 ∧
    ((mark_as_sold mdb0 1).produce.find? (fun p => p.id == 1)).map Produce.status = some "sold" ∧
    ((mark_as_sold mdb0 1).produce.find? (fun p => p.id == 1)).map Produce.quantity = some 2 ∧
    (mark_as_sold mdb0 1).bids = mdb0.bids ∧
    (mark_as_sold mdb0 1).transactions = mdb0.transactions := by
  decide

/-- Claim C9, amended: `sold` status comes only from the manual
`mark_as_sold` button, which sets it unconditionally — whatever the remaining
quantity — and changes nothing else; bid acceptance never modifies the
produce table, so it can neither deplete a listing nor mark it sold. -/
theorem sold_status_only_from_manual_mark (db : MarketDB) (produceId : Nat) (p : Produce)
    (hp : db.produce.find? (fun x => x.id == produceId) = some p) :
    (mark_as_sold db produceId).produce.find? (fun x => x.id == produceId) =
      some { p with status := "sold" } ∧
    (mark_as_sold db produceId).bids = db.bids ∧
    (mark_as_sold db produceId).transactions = db.transactions ∧
    (∀ (db2 : MarketDB) (i acting : Nat) (ref : String),
      (accept_bid db2 i acting ref).produce = db2.produce) := by
  refine ⟨?_, rfl, rfl, accept_bid_produce_unchanged⟩
  exact sqlUpdate_find?_stable _ _ _ _ (fun y => rfl) hp

/-- Claim C9, witness for the amended theorem on the concrete store. -/
theorem sold_status_only_from_manual_mark_witness :
    mdb0.produce.find? (fun x => x.id == 1) = some produce1 ∧
    (mark_as_sold mdb0 1).produce.find? (fun x => x.id == 1) =
      some { produce1 with status := "sold" } :=
  ⟨by decide, (sold_status_only_from_manual_mark mdb0 1 produce1 (by decide)).1⟩

/-- Claim C10: `save_user` is atomic on duplicate usernames.  When a user row
with the username already exists, the `UNIQUE` constraint raises
`IntegrityError` and `save_user` returns `False` with the store untouched;
otherwise it returns `True` having appended exactly one row whose password is
the SHA-256 hex digest of the given password. -/
theorem save_user_duplicate_atomic (db : BackDB) (u pw r : String) :
    ((∃ x ∈ db.users, x.username = u) → save_user db u pw r = (false, db)) ∧
    ((¬ ∃ x ∈ db.users, x.username = u) →
      save_user db u pw r =
        (true, { db with users := db.users ++
          [{ username := u, password := hash_password pw, role := r }] })) := by
  constructor
  · intro hex
    have hany : db.users.any (fun x => x.username == u) = true := by
      rcases hex with ⟨x, hx, he⟩
      exact List.any_eq_true.mpr ⟨x, hx, by simp [he]⟩
    unfold save_user insertUserRow
    dsimp only
    rw [if_pos hany]
  · intro hnex
    have hany : db.users.any (fun x => x.username == u) = false := by
      rw [List.any_eq_false]
      intro x hx hpe
      exact hnex ⟨x, hx, by simpa using hpe⟩
    unfold save_user insertUserRow
    dsimp only
    rw [if_neg (by rw [hany]; exact Bool.false_ne_true)]

/-- Claim C10, witness: the duplicate branch on a store already holding
`alice`, and the insert branch for a fresh username. -/
theorem save_user_duplicate_atomic_witness :
    (∃ x ∈ bdbU.users, x.username = "alice") ∧
    save_user bdbU "alice" "pw" "user" = (false, bdbU) ∧
    (¬ ∃ x ∈ bdbU.users, x.username = "bob") ∧
    save_user bdbU "bob" "pw" "user" =
      (true, { bdbU with users := bdbU.users ++
        [{ username := "bob", password := hash_password "pw", role := "user" }] }) :=
  ⟨by decide, (save_user_duplicate_atomic bdbU "alice" "pw" "user").1 (by decide),
   by decide, (save_user_duplicate_atomic bdbU "bob" "pw" "user").2 (by decide)⟩
